import Mathlib

set_option linter.unusedVariables false

/-!
Shallow embedding of the Ki Wellness AI service core
(`src/api/chat.py`, `src/api/analysis.py`, `src/utils/auth.py`,
`src/models/database.py`, `src/resources/health_resources.py`)
and verification of its specification claims.

Python strings are modelled as Lean `String` (both `len`/`length` count
Unicode code points).  Python's keyword test `w in s` is contiguous-substring
membership, modelled by `occursIn`.  The external collaborators (the Ollama
model backend and the JSON parser of the standard library) are modelled as
explicit function parameters returning `Except`/`Option`, so that "the
backend raises" is `Except.error` and "the text does not parse" is `none`.
-/

namespace KiAI

/-- `startsWithL needle hay` : `needle` is a prefix of `hay`
(model of the prefix comparison underlying Python's `in`). -/
def startsWithL : List Char → List Char → Bool
  | [], _ => true
  | _ :: _, [] => false
  | a :: as, b :: bs => a == b && startsWithL as bs

/-- `occursIn needle hay` : `needle` occurs contiguously in `hay`
(model of Python's `needle in hay` on strings). -/
def occursIn (needle : List Char) : List Char → Bool
  | [] => needle.isEmpty
  | c :: t => startsWithL needle (c :: t) || occursIn needle t

/-- Python's `str.lower()` modelled character-wise (`String.toLower` is
defined by well-founded recursion over byte positions and does not
evaluate inside the kernel; this map-based form does, and agrees with it
character for character). -/
def strLower (s : String) : String :=
  String.mk (s.data.map Char.toLower)

/-- `anyWordIn words s` models Python's
`any(word in s for word in words)`. -/
def anyWordIn (words : List String) (s : String) : Bool :=
  words.any (fun w => occursIn w.data s.data)

/-- Keyword list of the `nutrition` branch of `_determine_topic`
(src/api/chat.py line 242). -/
def nutritionKeywords : List String :=
  ["energy", "energizing", "boost", "power", "fuel", "calorie", "calories",
   "weight", "diet", "meal", "eating", "food"]

/-- Keyword list of the `mood` branch (line 244). -/
def moodKeywords : List String :=
  ["mood", "feel", "emotion", "happy", "sad", "stress", "anxiety", "depression"]

/-- Keyword list of the `hydration` branch (line 246). -/
def hydrationKeywords : List String :=
  ["water", "hydrate", "drink", "fluid", "dehydrated"]

/-- Keyword list of the `exercise` branch (line 248). -/
def exerciseKeywords : List String :=
  ["exercise", "workout", "fitness", "activity", "training"]

/-- Keyword list of the `wellness` branch (line 250). -/
def wellnessKeywords : List String :=
  ["health", "wellness", "habit", "lifestyle", "goal"]

/-- `_determine_topic` (src/api/chat.py lines 238-253): lowercase the
message, then test the five keyword lists in order; first match wins,
otherwise `general`. -/
def determineTopic (message : String) : String :=
  let messageLower := strLower message
  if anyWordIn nutritionKeywords messageLower then "nutrition"
  else if anyWordIn moodKeywords messageLower then "mood"
  else if anyWordIn hydrationKeywords messageLower then "hydration"
  else if anyWordIn exerciseKeywords messageLower then "exercise"
  else if anyWordIn wellnessKeywords messageLower then "wellness"
  else "general"

/-- A curated resource entry: `(title, url, description)` triple
(src/resources/health_resources.py). -/
structure Resource where
  title : String
  url : String
  description : String
deriving DecidableEq, Repr

/-- `MEDIUM_BLOG_RESOURCES['nutrition']`. -/
def nutritionBlogs : List Resource :=
  [⟨"10 Energy-Boosting Foods for Better Performance",
    "https://kiwellness.medium.com/10-energy-boosting-foods-for-better-performance",
    "Discover the best foods to fuel your day"⟩,
   ⟨"The Complete Guide to Healthy Meal Planning",
    "https://kiwellness.medium.com/complete-guide-to-healthy-meal-planning",
    "Learn how to plan nutritious meals that support your goals"⟩,
   ⟨"Understanding Calories: Quality vs Quantity",
    "https://kiwellness.medium.com/understanding-calories-quality-vs-quantity",
    "Why the quality of your calories matters more than the number"⟩]

/-- `MEDIUM_BLOG_RESOURCES['mood']`. -/
def moodBlogs : List Resource :=
  [⟨"5 Simple Ways to Boost Your Mood Naturally",
    "https://kiwellness.medium.com/5-simple-ways-to-boost-your-mood-naturally",
    "Natural strategies for improving your mental wellbeing"⟩,
   ⟨"The Connection Between Diet and Mental Health",
    "https://kiwellness.medium.com/diet-and-mental-health-connection",
    "How what you eat affects how you feel"⟩,
   ⟨"Tracking Your Mood: A Beginner\x27s Guide",
    "https://kiwellness.medium.com/tracking-your-mood-beginners-guide",
    "Learn how to monitor and improve your emotional health"⟩]

/-- `MEDIUM_BLOG_RESOURCES['hydration']`. -/
def hydrationBlogs : List Resource :=
  [⟨"Hydration 101: How Much Water Do You Really Need?",
    "https://kiwellness.medium.com/hydration-101-how-much-water-do-you-really-need",
    "The science behind proper hydration"⟩,
   ⟨"Signs You\x27re Not Drinking Enough Water",
    "https://kiwellness.medium.com/signs-youre-not-drinking-enough-water",
    "Recognize the warning signs of dehydration"⟩,
   ⟨"Creative Ways to Stay Hydrated Throughout the Day",
    "https://kiwellness.medium.com/creative-ways-to-stay-hydrated",
    "Fun and effective hydration strategies"⟩]

/-- `MEDIUM_BLOG_RESOURCES['wellness']`. -/
def wellnessBlogs : List Resource :=
  [⟨"Building Healthy Habits That Actually Stick",
    "https://kiwellness.medium.com/building-healthy-habits-that-actually-stick",
    "The psychology behind lasting behavior change"⟩,
   ⟨"Self-Care for Busy People: 5-Minute Wellness Rituals",
    "https://kiwellness.medium.com/self-care-for-busy-people",
    "Quick wellness practices for your busy lifestyle"⟩,
   ⟨"The Power of Small Changes in Your Health Journey",
    "https://kiwellness.medium.com/power-of-small-changes-in-health-journey",
    "Why incremental improvements lead to lasting results"⟩]

/-- `MEDIUM_BLOG_RESOURCES['general']`. -/
def generalBlogs : List Resource :=
  [⟨"Getting Started with Ki Wellness: Your Complete Guide",
    "https://kiwellness.medium.com/getting-started-with-ki-wellness",
    "Everything you need to know to begin your wellness journey"⟩,
   ⟨"The Science Behind Self Health Tracking",
    "https://kiwellness.medium.com/science-behind-self-health-tracking",
    "Why tracking your health data leads to better outcomes"⟩]

/-- Dictionary lookup `MEDIUM_BLOG_RESOURCES` — `some` exactly on the five
keys present in the Python dict (src/resources/health_resources.py
lines 7-88). -/
def mediumBlogResources (topic : String) : Option (List Resource) :=
  if topic = "nutrition" then some nutritionBlogs
  else if topic = "mood" then some moodBlogs
  else if topic = "hydration" then some hydrationBlogs
  else if topic = "wellness" then some wellnessBlogs
  else if topic = "general" then some generalBlogs
  else none

/-- `AUTHORITATIVE_SOURCES['nutrition']`. -/
def nutritionSources : List Resource :=
  [⟨"Nutrition Basics - Mayo Clinic",
    "https://www.mayoclinic.org/healthy-lifestyle/nutrition-and-healthy-eating/basics/nutrition-basics/hlv-20049477",
    "Comprehensive nutrition information from Mayo Clinic"⟩,
   ⟨"Healthy Eating - Harvard Health",
    "https://www.health.harvard.edu/topics/healthy-eating",
    "Evidence-based nutrition advice from Harvard Medical School"⟩]

/-- `AUTHORITATIVE_SOURCES['mood']`. -/
def moodSources : List Resource :=
  [⟨"Mental Health - Mayo Clinic",
    "https://www.mayoclinic.org/healthy-lifestyle/adult-health/in-depth/mental-health/art-20044098",
    "Mental health resources and information"⟩,
   ⟨"Depression and Anxiety - WebMD",
    "https://www.webmd.com/depression/default.htm",
    "Understanding and managing mood disorders"⟩]

/-- `AUTHORITATIVE_SOURCES['hydration']`. -/
def hydrationSources : List Resource :=
  [⟨"Water: How Much Should You Drink? - Mayo Clinic",
    "https://www.mayoclinic.org/healthy-lifestyle/nutrition-and-healthy-eating/in-depth/water/art-20044256",
    "Official hydration guidelines from Mayo Clinic"⟩,
   ⟨"Hydration - Harvard Health",
    "https://www.health.harvard.edu/staying-healthy/how-much-water-should-you-drink",
    "Research-based hydration advice"⟩]

/-- `AUTHORITATIVE_SOURCES['exercise']`. -/
def exerciseSources : List Resource :=
  [⟨"Exercise - Mayo Clinic",
    "https://www.mayoclinic.org/healthy-lifestyle/fitness/in-depth/exercise/art-20048389",
    "Exercise guidelines and benefits"⟩,
   ⟨"Physical Activity - CDC",
    "https://www.cdc.gov/physicalactivity/basics/index.htm",
    "Official physical activity recommendations"⟩]

/-- Dictionary lookup `AUTHORITATIVE_SOURCES` — `some` exactly on the four
keys present in the Python dict (lines 91-140). -/
def authoritativeSources (topic : String) : Option (List Resource) :=
  if topic = "nutrition" then some nutritionSources
  else if topic = "mood" then some moodSources
  else if topic = "hydration" then some hydrationSources
  else if topic = "exercise" then some exerciseSources
  else none

/-- `get_relevant_resources(question_type, topic)` (src/resources/
health_resources.py lines 142-159): up to 2 blog resources keyed by
`topic`, else by `question_type`, else one `general` blog resource;
then up to 1 authoritative source keyed by `topic`. -/
def getRelevantResources (questionType : String) (topic : String) : List Resource :=
  let blogPart : List Resource :=
    match mediumBlogResources topic with
    | some rs => rs.take 2
    | none =>
      match mediumBlogResources questionType with
      | some rs => rs.take 2
      | none => generalBlogs.take 1
  let authPart : List Resource :=
    match authoritativeSources topic with
    | some rs => rs.take 1
    | none => []
  blogPart ++ authPart

/-- The numbered lines of `format_resources_for_prompt`
(src/resources/health_resources.py lines 167-168), starting at index `i`. -/
def formatResourceLines : Nat → List Resource → String
  | _, [] => ""
  | i, r :: rs =>
    toString i ++ ". " ++ r.title ++ " - " ++ r.url ++ "\n" ++
      formatResourceLines (i + 1) rs

/-- `format_resources_for_prompt(resources)` (lines 161-170). -/
def formatResourcesForPrompt (resources : List Resource) : String :=
  if resources.isEmpty then ""
  else "\n\nAvailable Resources:\n" ++ formatResourceLines 1 resources

/-- The characters removed by `sanitize_input` (src/utils/auth.py line 115),
by code point: `<` `>` `"` `'` `&` `;` `(` `)` and the two braces and the
two square brackets. -/
def dangerousChars : List Char :=
  [Char.ofNat 60, Char.ofNat 62, Char.ofNat 34, Char.ofNat 39,
   Char.ofNat 38, Char.ofNat 59, Char.ofNat 40, Char.ofNat 41,
   Char.ofNat 123, Char.ofNat 125, Char.ofNat 91, Char.ofNat 93]

/-- Python `text.replace(c, '')` for a single character `c`. -/
def removeChar (c : Char) (s : List Char) : List Char :=
  s.filter (fun x => !(x == c))

/-- The `for char in dangerous_chars: text = text.replace(char, '')` loop
(src/utils/auth.py lines 116-117). -/
def removeDangerous (s : List Char) : List Char :=
  dangerousChars.foldl (fun acc c => removeChar c acc) s

/-- The whitespace class stripped by Python's `str.strip()`, restricted to
its ASCII members (space, tab, newline, vertical tab, form feed, carriage
return); the claims and witnesses only involve ASCII text. -/
def pyIsSpace (c : Char) : Bool :=
  c == ' ' || c == Char.ofNat 9 || c == Char.ofNat 10 ||
    c == Char.ofNat 11 || c == Char.ofNat 12 || c == Char.ofNat 13

/-- Python `text.strip()`: drop leading and trailing whitespace. -/
def pyStrip (s : List Char) : List Char :=
  (s.dropWhile pyIsSpace).rdropWhile pyIsSpace

/-- `sanitize_input(text, max_length=1000)` (src/utils/auth.py
lines 105-119): empty in, empty out; otherwise truncate to 1000
characters, delete the dangerous characters, and strip. -/
def sanitizeInput (text : String) : String :=
  if text = "" then ""
  else
    let t := if text.length > 1000 then String.mk (text.data.take 1000) else text
    String.mk (pyStrip (removeDangerous t.data))

/-- The fixed instruction block appended to every chat prompt
(src/api/chat.py lines 209-217). -/
def promptTail : String :=
  "Provide a short, helpful response (max 2-3 sentences) and include relevant links. Format your response as:\n\n[Your helpful response here]\n\n📚 Helpful Resources:\n- [Link 1: Brief description]\n- [Link 2: Brief description]\n\nAlways include at least one link to our Medium blog (kiwellness.medium.com) when relevant, and cite authoritative health sources like Mayo Clinic, WebMD, or Harvard Health for medical advice."

/-- The role-framing head of every chat prompt (line 197). -/
def promptHead : String := "You are a supportive AI Health Coach for "

/-- The text between profile name and message in every chat prompt
(line 197). -/
def promptMid : String := ". Keep responses short, helpful, and actionable.\n\nQuestion: "

/-- The replacement template of the oversized branch (lines 222-234); its
text is the base template with no context and no resources. -/
def truncatedPrompt (profileName message : String) : String :=
  promptHead ++ profileName ++ promptMid ++ message ++ "\n\n" ++ promptTail

/-- `_create_optimized_prompt(message, context, context_type, chat_history)`
(src/api/chat.py lines 185-236).  `chat_history` is unused by the Python
body and is omitted.  `profileName` stands for the value computed at
lines 189-194 (`context['profile']['name']` with default `'User'`) and
`relevantContext` for the string returned by `_extract_relevant_context`
at line 200; both are passed in explicitly so the theorems quantify over
every possible context. -/
def createOptimizedPrompt (message profileName relevantContext contextType : String) : String :=
  let base0 := promptHead ++ profileName ++ promptMid ++ message ++ "\n\n"
  let base1 := if relevantContext ≠ "" then base0 ++ "Relevant Data: " ++ relevantContext ++ "\n" else base0
  let resources := getRelevantResources contextType (determineTopic message)
  let base2 := if ¬ resources.isEmpty then base1 ++ formatResourcesForPrompt resources else base1
  let basePrompt := base2 ++ promptTail
  if basePrompt.length > 1000 then truncatedPrompt profileName message
  else basePrompt

/-- `_get_fallback_response(message, context_type)` (src/api/chat.py
lines 255-292).  The `context_type` argument is unused by the Python
body. -/
def getFallbackResponse (message : String) (contextType : String) : String :=
  let messageLower := strLower message
  if anyWordIn ["anti-inflammation", "anti-inflammatory", "inflammation"] messageLower then
    "For anti-inflammatory meals, focus on foods rich in omega-3s, antioxidants, and fiber. Try a salmon salad with leafy greens, berries, and walnuts, or a turmeric-spiced lentil soup with ginger.\n\n📚 Helpful Resources:\n- [Anti-Inflammatory Diet Guide](https://kiwellness.medium.com/anti-inflammatory-foods) - Ki Wellness blog\n- [Mayo Clinic: Anti-inflammatory diet](https://www.mayoclinic.org/healthy-lifestyle/nutrition-and-healthy-eating/in-depth/anti-inflammatory-diet/art-20457586) - Medical guidance"
  else if anyWordIn ["energy", "energizing", "boost", "meal", "food", "nutrition"] messageLower then
    "For sustained energy, combine complex carbs with protein and healthy fats. Try oatmeal with nuts and berries, or a quinoa bowl with vegetables and lean protein.\n\n📚 Helpful Resources:\n- [Energy-Boosting Foods](https://kiwellness.medium.com/energy-foods) - Ki Wellness blog\n- [Harvard Health: Foods that fight fatigue](https://www.health.harvard.edu/healthbeat/foods-that-fight-fatigue) - Expert advice"
  else if anyWordIn ["water", "hydrate", "drink"] messageLower then
    "Stay hydrated by drinking water throughout the day. Aim for 8-10 glasses daily, and include hydrating foods like cucumbers, watermelon, and citrus fruits.\n\n📚 Helpful Resources:\n- [Hydration Tips](https://kiwellness.medium.com/hydration-guide) - Ki Wellness blog\n- [WebMD: How much water should you drink?](https://www.webmd.com/diet/how-much-water-to-drink) - Daily recommendations"
  else if anyWordIn ["mood", "feel", "stress", "anxiety", "wellness"] messageLower then
    "Support your mood with regular exercise, adequate sleep, and mood-boosting foods like dark chocolate, fatty fish, and leafy greens. Practice stress management techniques daily.\n\n📚 Helpful Resources:\n- [Mood-Boosting Habits](https://kiwellness.medium.com/mood-wellness) - Ki Wellness blog\n- [Mayo Clinic: Stress management](https://www.mayoclinic.org/healthy-lifestyle/stress-management) - Expert guidance"
  else
    "I\x27m here to support your wellness journey! For personalized guidance, try logging your meals, water intake, and mood regularly. This helps identify patterns and make informed health decisions.\n\n📚 Helpful Resources:\n- [Wellness Tips](https://kiwellness.medium.com/wellness-guide) - Ki Wellness blog\n- [Personalized Health Coaching](https://kiwellness.org/human-help) - Book a session with our certified nutritionist"

/-- The configured Ollama model name (`OLLAMA_MODEL` env default,
src/api/chat.py line 21). -/
def ollamaModel : String := "mistral"

/-- The fine-tuned model name (`FINE_TUNED_MODEL` env default, line 22). -/
def fineTunedModel : String := "ki-wellness-mistral"

/-- One row written by `log_user_interaction`, reduced to the fields the
claims are about:  the `interaction_type` label and the `model_used`
identity. -/
structure InteractionRecord where
  interactionType : String
  modelUsed : String
deriving DecidableEq, Repr

/-- The JSON body of a successful chat response (src/api/chat.py
lines 84-90 and 110-117). -/
structure ChatResponse where
  success : Bool
  response : String
  modelUsed : String
  note : Option String
deriving DecidableEq, Repr

/-- Outcome of an endpoint: a JSON success body, or an HTTP error status
with the error text (the `jsonify({'success': False, ...}), 500`
branches). -/
inductive ApiResult where
  | ok (r : ChatResponse)
  | httpError (status : Nat) (msg : String)
deriving DecidableEq, Repr

/-- Observable effects of one chat request: the returned result, the
interaction rows actually inserted by the request's logging calls (the
table starts empty), and the content handed to the model backend. -/
structure ChatStep where
  result : ApiResult
  logs : List InteractionRecord
  sent : String
deriving Repr

/-- `log_user_interaction` (src/models/database.py lines 145-173) acting
on the `user_interactions` table.  `poolAvailable` is whether the global
`connection_pool` is non-`None`; `insertFails` is whether the INSERT (or
commit) raises inside the `try`.  `Except.error` models an exception
propagating to the caller.  The `get_db_connection()` call sits *before*
the `try` block, so an unavailable pool raises `RuntimeError` uncaught;
a failing insert is caught, rolled back and swallowed. -/
def logUserInteraction (poolAvailable insertFails : Bool)
    (tbl : List InteractionRecord) (row : InteractionRecord) :
    Except String (List InteractionRecord) :=
  if ¬ poolAvailable then
    Except.error "Database not available. Check your DATABASE_URL configuration."
  else if insertFails then
    Except.ok tbl
  else
    Except.ok (tbl ++ [row])

/-- The model-invocation part of `chat_message` (src/api/chat.py
lines 41-121), beginning at the `sanitize_input` call.  `backend` models
`ollama.chat` on the assembled prompt: `Except.ok` is the completion
text, `Except.error` a raised exception.  `profileName` and
`relevantContext` stand for the values `_create_optimized_prompt`
derives from the request's `context` (see `createOptimizedPrompt`).
`poolAvailable`/`insertFails` are the database state seen by the
`log_user_interaction` calls.  A logging exception on the success path
is caught by the same `except` that handles Ollama failures (line 92),
so the fallback path runs and its own logging call raises again,
reaching the outer handler (line 119) which returns the 500. -/
def chatMessage (rawMessage contextType profileName relevantContext : String)
    (backend : String → Except String String)
    (poolAvailable insertFails : Bool) : ChatStep :=
  let message := sanitizeInput rawMessage
  let prompt := createOptimizedPrompt message profileName relevantContext contextType
  match backend prompt with
  | Except.ok aiResponse =>
    match logUserInteraction poolAvailable insertFails []
        { interactionType := "chat", modelUsed := ollamaModel } with
    | Except.ok tbl =>
      { result := ApiResult.ok
          { success := true, response := aiResponse, modelUsed := ollamaModel, note := none },
        logs := tbl,
        sent := prompt }
    | Except.error _ =>
      let fallbackResponse := getFallbackResponse message contextType
      match logUserInteraction poolAvailable insertFails []
          { interactionType := "chat_fallback", modelUsed := "fallback" } with
      | Except.ok tbl =>
        { result := ApiResult.ok
            { success := true, response := fallbackResponse, modelUsed := "fallback",
              note := some "Using fallback response - AI model temporarily unavailable" },
          logs := tbl,
          sent := prompt }
      | Except.error e =>
        { result := ApiResult.httpError 500 e, logs := [], sent := prompt }
  | Except.error _ =>
    let fallbackResponse := getFallbackResponse message contextType
    match logUserInteraction poolAvailable insertFails []
        { interactionType := "chat_fallback", modelUsed := "fallback" } with
    | Except.ok tbl =>
      { result := ApiResult.ok
          { success := true, response := fallbackResponse, modelUsed := "fallback",
            note := some "Using fallback response - AI model temporarily unavailable" },
        logs := tbl,
        sent := prompt }
    | Except.error e =>
      { result := ApiResult.httpError 500 e, logs := [], sent := prompt }

/-- The model-invocation part of `enhanced_chat` (src/api/chat.py
lines 123-183).  The sanitized question is sent to the fine-tuned model;
on exception it is retried on the base model; if that also raises, the
outer handler returns a 500 and no logging is attempted.  The single
`log_user_interaction` call sits directly inside the outer `try`, so a
logging exception becomes a 500 as well. -/
def enhancedChat (rawQuestion : String)
    (fineTuned baseModel : String → Except String String)
    (poolAvailable insertFails : Bool) : ChatStep :=
  let question := sanitizeInput rawQuestion
  match fineTuned question with
  | Except.ok aiResponse =>
    match logUserInteraction poolAvailable insertFails []
        { interactionType := "enhanced_chat", modelUsed := fineTunedModel } with
    | Except.ok tbl =>
      { result := ApiResult.ok
          { success := true, response := aiResponse, modelUsed := fineTunedModel, note := none },
        logs := tbl,
        sent := question }
    | Except.error e =>
      { result := ApiResult.httpError 500 e, logs := [], sent := question }
  | Except.error _ =>
    match baseModel question with
    | Except.ok aiResponse =>
      match logUserInteraction poolAvailable insertFails []
          { interactionType := "enhanced_chat", modelUsed := ollamaModel } with
      | Except.ok tbl =>
        { result := ApiResult.ok
            { success := true, response := aiResponse, modelUsed := ollamaModel, note := none },
          logs := tbl,
          sent := question }
      | Except.error e =>
        { result := ApiResult.httpError 500 e, logs := [], sent := question }
    | Except.error e =>
      { result := ApiResult.httpError 500 e, logs := [], sent := question }

/-- One entry of the structured analysis result (a `title`/`description`
object). -/
structure AnalysisItem where
  title : String
  description : String
deriving DecidableEq, Repr

/-- The structured analysis payload (`patterns` and `suggestions`
sections). -/
structure Analysis where
  patterns : List AnalysisItem
  suggestions : List AnalysisItem
deriving DecidableEq, Repr

/-- The canned default substituted when `json.loads` fails on the model's
text (src/api/analysis.py lines 148-156). -/
def parseFailureAnalysis : Analysis :=
  { patterns :=
      [⟨"Data Analysis",
        "We\x27re analyzing your wellness patterns. Keep logging to get more personalized insights!"⟩],
    suggestions :=
      [⟨"Complete Your Profile",
        "Add your health goals to your profile to get personalized suggestions."⟩] }

/-- The canned analysis substituted when the backend itself raises
(src/api/analysis.py lines 184-191). -/
def backendFailureAnalysis : Analysis :=
  { patterns :=
      [⟨"Getting Started",
        "Welcome to your AI Health Coach! Start logging your food, water, and mood to get personalized insights."⟩],
    suggestions :=
      [⟨"Complete Your Profile",
        "Add your health goals to your profile to get personalized suggestions."⟩] }

/-- The JSON body of an analysis response (src/api/analysis.py
lines 172-178 and 205-212). -/
structure AnalysisResponse where
  success : Bool
  analysis : Analysis
  modelUsed : String
  note : Option String
deriving DecidableEq, Repr

/-- Outcome of an analysis request: a JSON success body, or an HTTP error
status with the error text (the `jsonify({'success': False, ...}), 500`
branch at src/api/analysis.py line 214). -/
inductive AnalysisResult where
  | ok (r : AnalysisResponse)
  | httpError (status : Nat) (msg : String)
deriving DecidableEq, Repr

/-- Observable effects of one analysis request: the returned result and
the interaction rows actually inserted. -/
structure AnalysisStep where
  result : AnalysisResult
  logs : List InteractionRecord
deriving Repr

/-- The model-invocation part of `generate_analysis` (src/api/analysis.py
lines 133-216).  `backend` models `ollama.chat` on the analysis prompt;
`parse` models `json.loads` on the returned text (`none` = the text is
not well-formed JSON, the `json.JSONDecodeError` branch).  As in
`chat_message`, a logging exception on the success path is caught by the
`except Exception as ollama_error` at line 180 (substituting the
backend-failure canned analysis en route), and the fallback path's own
logging call then raises to the outer handler (line 214). -/
def generateAnalysis (backend : Except String String)
    (parse : String → Option Analysis)
    (poolAvailable insertFails : Bool) : AnalysisStep :=
  match backend with
  | Except.ok aiResponse =>
    let analysis :=
      match parse aiResponse with
      | some a => a
      | none => parseFailureAnalysis
    match logUserInteraction poolAvailable insertFails []
        { interactionType := "analysis_generation", modelUsed := ollamaModel } with
    | Except.ok tbl =>
      { result := AnalysisResult.ok
          { success := true, analysis := analysis, modelUsed := ollamaModel, note := none },
        logs := tbl }
    | Except.error _ =>
      match logUserInteraction poolAvailable insertFails []
          { interactionType := "analysis_fallback", modelUsed := "fallback" } with
      | Except.ok tbl =>
        { result := AnalysisResult.ok
            { success := true, analysis := backendFailureAnalysis, modelUsed := "fallback",
              note := some "Using fallback analysis - AI model temporarily unavailable" },
          logs := tbl }
      | Except.error e =>
        { result := AnalysisResult.httpError 500 e, logs := [] }
  | Except.error _ =>
    match logUserInteraction poolAvailable insertFails []
        { interactionType := "analysis_fallback", modelUsed := "fallback" } with
    | Except.ok tbl =>
      { result := AnalysisResult.ok
          { success := true, analysis := backendFailureAnalysis, modelUsed := "fallback",
            note := some "Using fallback analysis - AI model temporarily unavailable" },
        logs := tbl }
    | Except.error e =>
      { result := AnalysisResult.httpError 500 e, logs := [] }

/-- A food log entry as consumed by the analysis code: every field is read
with `log.get(..., default)`, so each is optional.  JSON numbers are
modelled as rationals. -/
structure FoodLog where
  name : Option String
  calories : Option ℚ
  timeOfDay : Option String
deriving Repr

/-- A mood log entry (`log.get('mood', 3)`). -/
structure MoodLog where
  mood : Option ℚ
deriving Repr

/-- A water log entry (`log.get('amount', 0)`). -/
structure WaterLog where
  amount : Option ℚ
deriving Repr

/-- `log.get('calories', 0)`. -/
def calOf (l : FoodLog) : ℚ := l.calories.getD 0

/-- `log.get('mood', 3)`. -/
def moodVal (l : MoodLog) : ℚ := l.mood.getD 3

/-- `log.get('amount', 0)`. -/
def amountOf (l : WaterLog) : ℚ := l.amount.getD 0

/-- `_get_mood_trend(mood_logs)` (src/api/analysis.py lines 297-314):
fewer than 2 entries is `insufficient_data`; otherwise compare the mean
of the first half (`logs[:n//2]`) with the mean of the second half
(`logs[n//2:]`) against a 0.5 margin. -/
def getMoodTrend (logs : List MoodLog) : String :=
  if logs.length < 2 then "insufficient_data"
  else
    let firstHalf := logs.take (logs.length / 2)
    let secondHalf := logs.drop (logs.length / 2)
    let firstAvg := (firstHalf.map moodVal).sum / (firstHalf.length : ℚ)
    let secondAvg := (secondHalf.map moodVal).sum / (secondHalf.length : ℚ)
    if secondAvg > firstAvg + 1/2 then "improving"
    else if secondAvg < firstAvg - 1/2 then "declining"
    else "stable"

/-- One step of the `food_counts` tally of `_get_common_foods`
(src/api/analysis.py lines 288-291); Python dicts preserve insertion
order, modelled by an association list. -/
def tallyFood (acc : List (String × Nat)) (n : String) : List (String × Nat) :=
  if acc.any (fun p => p.1 == n) then
    acc.map (fun p => if p.1 == n then (p.1, p.2 + 1) else p)
  else acc ++ [(n, 1)]

/-- `_get_common_foods(food_logs)` (lines 286-295): tally names, sort by
count descending (Python's stable `sorted` with `reverse=True`), keep the
top 5. -/
def getCommonFoods (logs : List FoodLog) : List (String × Nat) :=
  let counts := logs.foldl (fun acc l => tallyFood acc (l.name.getD "Unknown")) []
  (counts.mergeSort (fun a b => decide (b.2 ≤ a.2))).take 5

/-- The `food_summary` dict of `get_user_summary` (src/api/analysis.py
lines 237-248). -/
structure FoodSummary where
  totalEntries : Nat
  avgCalories : ℚ
  totalCalories : ℚ
  commonFoods : List (String × Nat)
  recentMeals : List FoodLog
deriving Repr

/-- The `mood_summary` dict (lines 251-259). -/
structure MoodSummary where
  totalEntries : Nat
  avgMood : ℚ
  moodTrend : String
  recentMoods : List MoodLog
deriving Repr

/-- The `water_summary` dict (lines 262-270). -/
structure WaterSummary where
  totalEntries : Nat
  totalWater : ℚ
  avgDailyWater : ℚ
  recentWater : List WaterLog
deriving Repr

/-- `food_summary` construction: average is `0` on an empty collection,
`sum/len` otherwise; `recent_meals` is the `[-5:]` slice. -/
def foodSummaryOf (logs : List FoodLog) : FoodSummary :=
  { totalEntries := logs.length,
    avgCalories := if logs.isEmpty then 0 else (logs.map calOf).sum / (logs.length : ℚ),
    totalCalories := (logs.map calOf).sum,
    commonFoods := getCommonFoods logs,
    recentMeals := logs.drop (logs.length - 5) }

/-- `mood_summary` construction: average is `0` on an empty collection. -/
def moodSummaryOf (logs : List MoodLog) : MoodSummary :=
  { totalEntries := logs.length,
    avgMood := if logs.isEmpty then 0 else (logs.map moodVal).sum / (logs.length : ℚ),
    moodTrend := getMoodTrend logs,
    recentMoods := logs.drop (logs.length - 5) }

/-- `water_summary` construction: the daily average divides by the fixed
7-day window and is `0` on an empty collection. -/
def waterSummaryOf (logs : List WaterLog) : WaterSummary :=
  { totalEntries := logs.length,
    totalWater := (logs.map amountOf).sum,
    avgDailyWater := if logs.isEmpty then 0 else (logs.map amountOf).sum / 7,
    recentWater := logs.drop (logs.length - 5) }

/-- The summary triple returned by the `get_user_summary` endpoint
(src/api/analysis.py lines 218-280). -/
structure UserSummary where
  food : FoodSummary
  mood : MoodSummary
  water : WaterSummary
deriving Repr

/-- `get_user_summary` body on extracted log collections. -/
def getUserSummary (food : List FoodLog) (mood : List MoodLog)
    (water : List WaterLog) : UserSummary :=
  { food := foodSummaryOf food, mood := moodSummaryOf mood, water := waterSummaryOf water }

/-- `avg_calories` of `generate_analysis` (src/api/analysis.py
lines 49-50). -/
def analysisAvgCalories (logs : List FoodLog) : ℚ :=
  if logs.isEmpty then 0 else (logs.map calOf).sum / (logs.length : ℚ)

/-- `avg_water` of `generate_analysis` (lines 51-52). -/
def analysisAvgWater (logs : List WaterLog) : ℚ :=
  if logs.isEmpty then 0 else (logs.map amountOf).sum / (logs.length : ℚ)

/-- `avg_mood` of `generate_analysis` (line 53) — note the neutral default
here is `3`, the midpoint of the 1-5 mood scale. -/
def analysisAvgMood (logs : List MoodLog) : ℚ :=
  if logs.isEmpty then 3 else (logs.map moodVal).sum / (logs.length : ℚ)

/-- The mean of a list of rationals, written from the spec's words
("comparing the mean of the first half of the sequence to the mean of the
second half"). -/
def ratMean (l : List ℚ) : ℚ := l.sum / (l.length : ℚ)

/-- The ordered `(topic, keyword list)` table of the spec's words for the
topic classifier (spec section 4.2): "evaluated in a fixed priority order
(nutrition checked first, then mood, then hydration, then exercise, then
wellness)". -/
def topicTable : List (String × List String) :=
  [("nutrition", nutritionKeywords), ("mood", moodKeywords),
   ("hydration", hydrationKeywords), ("exercise", exerciseKeywords),
   ("wellness", wellnessKeywords)]

/-- The topic classifier written from the spec's words, for comparison
with `determineTopic`: the first topic of `topicTable` whose keyword list
matches the lowercased text wins; `general` when none match. -/
def specClassifyTopic (text : String) : String :=
  match topicTable.find? (fun p => anyWordIn p.2 (strLower text)) with
  | some p => p.1
  | none => "general"

/-- `Except.ok`-ness as a Bool (used to state when `enhanced_chat` manages
to obtain a completion). -/
def exceptOk : Except String String → Bool
  | Except.ok _ => true
  | Except.error _ => false

/- ### Helper lemmas -/

lemma foldl_removeChar_length_le (cs : List Char) :
    ∀ l : List Char, (cs.foldl (fun acc c => removeChar c acc) l).length ≤ l.length := by
  induction cs with
  | nil => intro l; exact le_refl _
  | cons c cs ih =>
    intro l
    calc (List.foldl (fun acc c => removeChar c acc) (removeChar c l) cs).length
        ≤ (removeChar c l).length := ih _
      _ ≤ l.length := List.length_filter_le _ _

lemma mem_foldl_removeChar (cs : List Char) :
    ∀ l x, x ∈ cs.foldl (fun acc c => removeChar c acc) l →
      x ∈ l ∧ x ∉ cs := by
  induction cs with
  | nil => intro l x h; exact ⟨h, by simp⟩
  | cons c cs ih =>
    intro l x h
    obtain ⟨hmem, hrest⟩ := ih (removeChar c l) x h
    rw [removeChar, List.mem_filter] at hmem
    have hne : x ≠ c := by
      intro hxc
      have := hmem.2
      rw [hxc] at this
      simp at this
    refine ⟨hmem.1, ?_⟩
    simp only [List.mem_cons, not_or]
    exact ⟨hne, hrest⟩

lemma pyStrip_length_le (l : List Char) : (pyStrip l).length ≤ l.length :=
  le_trans (List.rdropWhile_prefix pyIsSpace _).length_le
    (List.dropWhile_suffix pyIsSpace).length_le

lemma pyStrip_subset (l : List Char) : pyStrip l ⊆ l := by
  intro x hx
  exact (List.dropWhile_suffix pyIsSpace).subset
    ((List.rdropWhile_prefix pyIsSpace _).subset hx)

lemma head?_dropWhile_not (p : Char → Bool) :
    ∀ (l : List Char) (c : Char), (l.dropWhile p).head? = some c → p c = false := by
  intro l
  induction l with
  | nil => intro c h; simp [List.dropWhile] at h
  | cons a t ih =>
    intro c h
    cases hpa : p a
    · rw [List.dropWhile_cons, hpa] at h
      simp at h
      subst h; exact hpa
    · rw [List.dropWhile_cons, hpa] at h
      exact ih c (by simpa using h)

lemma head?_pyStrip_not (l : List Char) (c : Char) :
    (pyStrip l).head? = some c → pyIsSpace c = false := by
  intro h
  rw [pyStrip] at h
  obtain ⟨t, ht⟩ := List.rdropWhile_prefix pyIsSpace (l.dropWhile pyIsSpace)
  have hne : ((l.dropWhile pyIsSpace).rdropWhile pyIsSpace) ≠ [] := by
    intro hnil; rw [hnil] at h; simp at h
  have : (l.dropWhile pyIsSpace).head? = some c := by
    rw [← ht, List.head?_append]
    rw [h]; rfl
  exact head?_dropWhile_not pyIsSpace l c this

lemma getLast?_pyStrip_not (l : List Char) (c : Char) :
    (pyStrip l).getLast? = some c → pyIsSpace c = false := by
  intro h
  rw [pyStrip, List.rdropWhile, List.getLast?_reverse] at h
  exact head?_dropWhile_not pyIsSpace _ c h

lemma resources_append_le_three {l1 l2 : List Resource} (h1 : l1.length ≤ 2)
    (h2 : l2.length ≤ 1) : (l1 ++ l2).length ≤ 3 := by
  rw [List.length_append]; omega

lemma sanitizeInput_shape (s : String) :
    sanitizeInput s = "" ∨
    ∃ t : List Char, sanitizeInput s = String.mk (pyStrip (removeDangerous t)) := by
  unfold sanitizeInput
  split_ifs
  · exact Or.inl rfl
  · exact Or.inr ⟨_, rfl⟩
  · exact Or.inr ⟨_, rfl⟩

lemma getFallbackResponse_ne_empty (m ct : String) : getFallbackResponse m ct ≠ "" := by
  unfold getFallbackResponse
  simp only []
  split_ifs <;> decide

lemma getMoodTrend_eq_of_two_le (logs : List MoodLog) (h : 2 ≤ logs.length) :
    getMoodTrend logs =
      (if ratMean ((logs.map moodVal).drop (logs.length / 2)) >
          ratMean ((logs.map moodVal).take (logs.length / 2)) + 1/2 then "improving"
       else if ratMean ((logs.map moodVal).drop (logs.length / 2)) <
          ratMean ((logs.map moodVal).take (logs.length / 2)) - 1/2 then "declining"
       else "stable") := by
  have h2 : ¬ logs.length < 2 := by omega
  simp only [getMoodTrend, if_neg h2, ratMean, List.map_take, List.map_drop,
    List.length_take, List.length_drop, List.length_map]

/- ### Claim theorems -/

set_option maxRecDepth 100000 in
/-- Claim C1, counterexample: for the 600-character message `aaa…a` (which
`sanitize_input` passes through unchanged), the prompt returned by
`_create_optimized_prompt` with the default profile name, empty relevant
context and the default `minimal` context type is 1118 characters long —
the claimed 1000-character budget is exceeded, because the truncation
branch re-embeds the full message. -/
theorem chat_prompt_budget_counterexample :
    1000 < (createOptimizedPrompt (String.mk (List.replicate 600 'a')) "User" ""
      "minimal").length ∧
    sanitizeInput (String.mk (List.replicate 600 'a')) =
      String.mk (List.replicate 600 'a') := by
  constructor
  · decide
  · decide

set_option maxRecDepth 4000 in
/-- Claim C1, amended: the assembler either returns a prompt of length at
most 1000 or performs the hard cutover to the fixed truncation template,
which contains only the role framing, the profile name, the message and
the fixed instructions; that template's length is `514 + |profileName| +
|message|`, so it exceeds the budget exactly when the name and message
alone are longer than 486 characters. -/
theorem chat_prompt_hard_cutover (message profileName relevantContext contextType : String) :
    ((createOptimizedPrompt message profileName relevantContext contextType).length ≤ 1000 ∨
      createOptimizedPrompt message profileName relevantContext contextType =
        truncatedPrompt profileName message) ∧
    (truncatedPrompt profileName message).length =
      514 + profileName.length + message.length := by
  constructor
  · unfold createOptimizedPrompt
    simp only []
    split_ifs <;>
      first
      | exact Or.inr rfl
      | exact Or.inl (by omega)
  · have h1 : promptHead.length = 41 := rfl
    have h2 : promptMid.length = 60 := rfl
    have h3 : promptTail.length = 411 := rfl
    have h4 : ("\n\n" : String).length = 2 := rfl
    simp only [truncatedPrompt, String.length_append, h1, h2, h3, h4]
    omega

/-- Claim C2, counterexample: in the reachable configuration where the
connection pool is `None` (no `DATABASE_URL`, the default dev setup), a
chat request whose backend raises does not return the fallback success:
the fallback path's `log_user_interaction` call raises `RuntimeError`,
the outer handler returns a 500 carrying that text, and no row is
written. -/
theorem chat_pool_unavailable_counterexample :
    (chatMessage "hello" "minimal" "User" "" (fun _ => Except.error "boom")
      false false).result =
      ApiResult.httpError 500
        "Database not available. Check your DATABASE_URL configuration." ∧
    (chatMessage "hello" "minimal" "User" "" (fun _ => Except.error "boom")
      false false).logs = [] := by
  exact ⟨rfl, rfl⟩

/-- Claim C2, amended: whenever the model backend raises on the assembled
prompt and the connection pool is available, `chat_message` returns a
success body whose `model_used` is the literal `"fallback"` and whose
response text is the corresponding entry of the fixed fallback table,
which is never empty — whether or not the INSERT itself fails, since that
failure is swallowed; when the pool is unavailable the logging call's
`RuntimeError` turns the response into a 500 instead. -/
theorem chat_backend_failure_fallback
    (rawMessage contextType profileName relevantContext : String)
    (backend : String → Except String String) (e : String)
    (h : backend (createOptimizedPrompt (sanitizeInput rawMessage) profileName
      relevantContext contextType) = Except.error e) :
    (∀ insertFails,
      (chatMessage rawMessage contextType profileName relevantContext backend
        true insertFails).result =
      ApiResult.ok
        { success := true,
          response := getFallbackResponse (sanitizeInput rawMessage) contextType,
          modelUsed := "fallback",
          note := some "Using fallback response - AI model temporarily unavailable" }) ∧
    getFallbackResponse (sanitizeInput rawMessage) contextType ≠ "" ∧
    (∀ insertFails,
      (chatMessage rawMessage contextType profileName relevantContext backend
        false insertFails).result =
      ApiResult.httpError 500
        "Database not available. Check your DATABASE_URL configuration.") := by
  refine ⟨?_, getFallbackResponse_ne_empty _ _, ?_⟩
  · intro insertFails
    unfold chatMessage
    simp only []
    rw [h]
    cases insertFails <;> rfl
  · intro insertFails
    unfold chatMessage
    simp only []
    rw [h]
    cases insertFails <;> rfl

/-- Claim C2, witness at a concrete request whose backend raises, with
the pool available. -/
theorem chat_backend_failure_fallback_witness :
    (chatMessage "hello" "minimal" "User" "" (fun _ => Except.error "boom")
      true false).result =
      ApiResult.ok
        { success := true,
          response := getFallbackResponse (sanitizeInput "hello") "minimal",
          modelUsed := "fallback",
          note := some "Using fallback response - AI model temporarily unavailable" } ∧
    getFallbackResponse (sanitizeInput "hello") "minimal" ≠ "" :=
  ⟨(chat_backend_failure_fallback "hello" "minimal" "User" ""
      (fun _ => Except.error "boom") "boom" rfl).1 false,
   (chat_backend_failure_fallback "hello" "minimal" "User" ""
      (fun _ => Except.error "boom") "boom" rfl).2.1⟩

/-- Claim C3, counterexample: an `enhanced_chat` request on which both the
fine-tuned and the base model raise writes zero interaction records and
returns a 500 error — not exactly one record per request — even with the
database fully available. -/
theorem enhanced_chat_double_failure_no_log :
    (enhancedChat "hello" (fun _ => Except.error "fine-tuned down")
      (fun _ => Except.error "base down") true false).logs.length = 0 ∧
    (enhancedChat "hello" (fun _ => Except.error "fine-tuned down")
      (fun _ => Except.error "base down") true false).result =
      ApiResult.httpError 500 "base down" := by
  exact ⟨rfl, rfl⟩

/-- Claim C3, amended: `chat_message` and `generate_analysis` attempt the
logging call on every outcome reached after model invocation (success,
backend fallback, parse fallback), and `enhanced_chat` attempts it
whenever at least one of its model invocations succeeds; exactly one
interaction record results when the connection pool is available and the
INSERT succeeds, and zero records otherwise — an unavailable pool turns
the response into a 500, a failed INSERT is rolled back and swallowed
while the response still succeeds.  When both `enhanced_chat`
invocations raise, no logging is attempted and a 500 is returned. -/
theorem interaction_log_count :
    (∀ rawMessage contextType profileName relevantContext backend
        poolAvailable insertFails,
      (chatMessage rawMessage contextType profileName relevantContext backend
        poolAvailable insertFails).logs.length =
        (if poolAvailable && !insertFails then 1 else 0)) ∧
    (∀ backend parse poolAvailable insertFails,
      (generateAnalysis backend parse poolAvailable insertFails).logs.length =
        (if poolAvailable && !insertFails then 1 else 0)) ∧
    (∀ rawQuestion fineTuned baseModel poolAvailable insertFails,
      (enhancedChat rawQuestion fineTuned baseModel poolAvailable
        insertFails).logs.length =
        (if (exceptOk (fineTuned (sanitizeInput rawQuestion)) ||
             exceptOk (baseModel (sanitizeInput rawQuestion))) &&
            poolAvailable && !insertFails then 1 else 0)) := by
  refine ⟨?_, ?_, ?_⟩
  · intro rawMessage contextType profileName relevantContext backend
      poolAvailable insertFails
    unfold chatMessage
    simp only []
    cases backend (createOptimizedPrompt (sanitizeInput rawMessage) profileName
        relevantContext contextType) <;>
      cases poolAvailable <;> cases insertFails <;> rfl
  · intro backend parse poolAvailable insertFails
    unfold generateAnalysis
    cases backend <;> cases poolAvailable <;> cases insertFails <;> rfl
  · intro rawQuestion fineTuned baseModel poolAvailable insertFails
    unfold enhancedChat
    simp only []
    cases h1 : fineTuned (sanitizeInput rawQuestion) <;>
      cases h2 : baseModel (sanitizeInput rawQuestion) <;>
        cases poolAvailable <;> cases insertFails <;>
          simp [exceptOk, h1, h2, logUserInteraction]

/-- Claim C4: evaluation of `log_user_interaction` at the failing
configuration.  With the connection pool unavailable it raises
`RuntimeError` to its caller (the `get_db_connection()` call sits before
the `try` block), contradicting the claim; a failing insert with the pool
available is indeed swallowed (rollback, no exception, table unchanged),
and a successful insert appends exactly one row. -/
theorem log_user_interaction_behavior :
    logUserInteraction false false []
        { interactionType := "chat", modelUsed := "mistral" } =
      Except.error "Database not available. Check your DATABASE_URL configuration." ∧
    (∀ tbl row, logUserInteraction true true tbl row = Except.ok tbl) ∧
    (∀ tbl row, logUserInteraction true false tbl row = Except.ok (tbl ++ [row])) :=
  ⟨rfl, fun _ _ => rfl, fun _ _ => rfl⟩

/-- Claim C5: the mood trend is `insufficient_data` below 2 entries, and
otherwise compares the mean of the first half with the mean of the second
half against the 0.5 margin — `improving` above, `declining` below,
`stable` in between. -/
theorem mood_trend_spec (logs : List MoodLog) :
    (logs.length < 2 → getMoodTrend logs = "insufficient_data") ∧
    (2 ≤ logs.length →
      (ratMean ((logs.map moodVal).drop (logs.length / 2)) >
          ratMean ((logs.map moodVal).take (logs.length / 2)) + 1/2 →
        getMoodTrend logs = "improving") ∧
      (ratMean ((logs.map moodVal).drop (logs.length / 2)) <
          ratMean ((logs.map moodVal).take (logs.length / 2)) - 1/2 →
        getMoodTrend logs = "declining") ∧
      (ratMean ((logs.map moodVal).take (logs.length / 2)) - 1/2 ≤
          ratMean ((logs.map moodVal).drop (logs.length / 2)) →
        ratMean ((logs.map moodVal).drop (logs.length / 2)) ≤
          ratMean ((logs.map moodVal).take (logs.length / 2)) + 1/2 →
        getMoodTrend logs = "stable")) := by
  constructor
  · intro h
    unfold getMoodTrend
    rw [if_pos h]
  · intro h
    rw [getMoodTrend_eq_of_two_le logs h]
    refine ⟨?_, ?_, ?_⟩
    · intro him
      rw [if_pos him]
    · intro hde
      rw [if_neg (by linarith), if_pos hde]
    · intro hlo hhi
      rw [if_neg (by linarith), if_neg (by linarith)]

/-- Claim C5, witness: the spec's example sequence `[2,2,2,4,5,5]` (first
half mean 2, second half mean 14/3) classifies as `improving`. -/
theorem mood_trend_spec_witness :
    getMoodTrend [⟨some 2⟩, ⟨some 2⟩, ⟨some 2⟩, ⟨some 4⟩, ⟨some 5⟩, ⟨some 5⟩] =
      "improving" :=
  ((mood_trend_spec [⟨some 2⟩, ⟨some 2⟩, ⟨some 2⟩, ⟨some 4⟩, ⟨some 5⟩, ⟨some 5⟩]).2
    (by decide)).1 (by norm_num [ratMean, moodVal])

/-- Claim C6: the topic classifier always lands in the fixed six-topic
set; it coincides with the spec's ordered first-match-wins evaluation of
the keyword table (nutrition, then mood, hydration, exercise, wellness,
else `general`); and any text with a nutrition keyword — in particular
one that also has a mood keyword — classifies as `nutrition`. -/
theorem topic_classifier_spec (m : String) :
    (determineTopic m = "nutrition" ∨ determineTopic m = "mood" ∨
     determineTopic m = "hydration" ∨ determineTopic m = "exercise" ∨
     determineTopic m = "wellness" ∨ determineTopic m = "general") ∧
    determineTopic m = specClassifyTopic m ∧
    (anyWordIn nutritionKeywords (strLower m) = true → determineTopic m = "nutrition") := by
  unfold determineTopic specClassifyTopic topicTable
  simp only []
  cases h1 : anyWordIn nutritionKeywords (strLower m) <;>
    cases h2 : anyWordIn moodKeywords (strLower m) <;>
      cases h3 : anyWordIn hydrationKeywords (strLower m) <;>
        cases h4 : anyWordIn exerciseKeywords (strLower m) <;>
          cases h5 : anyWordIn wellnessKeywords (strLower m) <;>
            simp [h1, h2, h3, h4, h5, List.find?]

/-- Claim C6, witness: a message containing both the nutrition keyword
`food` and the mood keyword `mood` classifies as `nutrition`. -/
theorem topic_classifier_spec_witness :
    determineTopic "I eat food when my mood is low" = "nutrition" :=
  (topic_classifier_spec "I eat food when my mood is low").2.2 (by decide)

/-- Claim C7, counterexample: with the connection pool unavailable (the
default dev configuration), a parse-failure analysis request does not
return the canned default success: the logging call raises on the
success path, the `except` at line 180 substitutes the backend-failure
canned analysis en route, its own logging call raises again, and the
outer handler surfaces a 500 — an error, contradicting the universal
claim. -/
theorem analysis_pool_unavailable_counterexample :
    (generateAnalysis (Except.ok "not json") (fun _ => none) false false).result =
      AnalysisResult.httpError 500
        "Database not available. Check your DATABASE_URL configuration." ∧
    (generateAnalysis (Except.ok "not json") (fun _ => none) false false).logs = [] := by
  exact ⟨rfl, rfl⟩

/-- Claim C7, amended: when the backend's text does not parse as JSON and
the connection pool is available, `generate_analysis` returns a success
body carrying the canned default analysis (patterns and suggestions
saying the system is still gathering data) — no exception, no error
response, whether or not the INSERT fails (that failure is swallowed);
when the pool is unavailable the logging `RuntimeError` instead surfaces
as a 500 through the exception chain. -/
theorem analysis_parse_failure_default (backendText : String)
    (parse : String → Option Analysis) (h : parse backendText = none) :
    (∀ insertFails,
      (generateAnalysis (Except.ok backendText) parse true insertFails).result =
      AnalysisResult.ok
        { success := true, analysis := parseFailureAnalysis,
          modelUsed := ollamaModel, note := none }) ∧
    (∀ insertFails,
      (generateAnalysis (Except.ok backendText) parse false insertFails).result =
      AnalysisResult.httpError 500
        "Database not available. Check your DATABASE_URL configuration.") := by
  constructor <;> intro insertFails <;> cases insertFails <;>
    simp [generateAnalysis, h, logUserInteraction]

/-- Claim C7, witness at a concrete non-JSON backend text with the pool
available. -/
theorem analysis_parse_failure_default_witness :
    (generateAnalysis (Except.ok "not json") (fun _ => none) true false).result =
      AnalysisResult.ok
        { success := true, analysis := parseFailureAnalysis,
          modelUsed := ollamaModel, note := none } :=
  (analysis_parse_failure_default "not json" (fun _ => none) rfl).1 false

/-- Claim C8: the summarization is a total function, and every `avg_*`
field is a fixed neutral value on an empty collection: 0 for the summary
averages of `get_user_summary`, and 0 / 0 / 3 for the calorie, water and
mood averages of `generate_analysis` (3 being the neutral midpoint of the
1-5 mood scale). -/
theorem summary_empty_neutral (food : List FoodLog) (mood : List MoodLog)
    (water : List WaterLog) :
    (food = [] → (getUserSummary food mood water).food.avgCalories = 0) ∧
    (mood = [] → (getUserSummary food mood water).mood.avgMood = 0) ∧
    (water = [] → (getUserSummary food mood water).water.avgDailyWater = 0) ∧
    (food = [] → analysisAvgCalories food = 0) ∧
    (water = [] → analysisAvgWater water = 0) ∧
    (mood = [] → analysisAvgMood mood = 3) := by
  refine ⟨?_, ?_, ?_, ?_, ?_, ?_⟩ <;> intro h <;> subst h <;> rfl

/-- Claim C8, witness: all six neutral values at the empty collections. -/
theorem summary_empty_neutral_witness :
    (getUserSummary [] [] []).food.avgCalories = 0 ∧
    (getUserSummary [] [] []).mood.avgMood = 0 ∧
    (getUserSummary [] [] []).water.avgDailyWater = 0 ∧
    analysisAvgMood [] = 3 :=
  ⟨(summary_empty_neutral [] [] []).1 rfl,
   (summary_empty_neutral [] [] []).2.1 rfl,
   (summary_empty_neutral [] [] []).2.2.1 rfl,
   (summary_empty_neutral [] [] []).2.2.2.2.2 rfl⟩

/-- Claim C9, counterexample: for the absent topic `sleep` with question
type `nutrition`, `get_relevant_resources` returns the first two
nutrition blog resources — not the `general` topic's resources the claim
prescribes for an absent topic (none of the returned entries belongs to
the `general` list). -/
theorem resources_general_fallback_counterexample :
    getRelevantResources "nutrition" "sleep" = nutritionBlogs.take 2 ∧
    (getRelevantResources "nutrition" "sleep").all
      (fun r => !(generalBlogs.contains r)) = true := by
  exact ⟨rfl, rfl⟩

/-- Claim C9, amended: the lookup returns at most 3 entries and never
errors or mutates the catalog; the blog part is keyed by `topic`, then —
when `topic` is absent — by `question_type`, and only when both are
absent does it degrade to one `general` resource; up to one authoritative
source for `topic` is appended when defined. -/
theorem resources_lookup_spec (questionType topic : String) :
    (getRelevantResources questionType topic).length ≤ 3 ∧
    (∀ rs, mediumBlogResources topic = some rs →
      getRelevantResources questionType topic =
        rs.take 2 ++ ((authoritativeSources topic).getD []).take 1) ∧
    (∀ rs, mediumBlogResources topic = none →
      mediumBlogResources questionType = some rs →
      getRelevantResources questionType topic =
        rs.take 2 ++ ((authoritativeSources topic).getD []).take 1) ∧
    (mediumBlogResources topic = none → mediumBlogResources questionType = none →
      getRelevantResources questionType topic =
        generalBlogs.take 1 ++ ((authoritativeSources topic).getD []).take 1) := by
  refine ⟨?_, ?_, ?_, ?_⟩
  · unfold getRelevantResources
    simp only []
    refine resources_append_le_three ?_ ?_
    · cases mediumBlogResources topic with
      | some rs => exact rs.length_take_le 2
      | none =>
        cases mediumBlogResources questionType with
        | some rs => exact rs.length_take_le 2
        | none => exact le_trans (generalBlogs.length_take_le 1) (by omega)
    · cases authoritativeSources topic with
      | some rs => exact rs.length_take_le 1
      | none => simp
  · intro rs hb
    unfold getRelevantResources
    rw [hb]
    cases ha : authoritativeSources topic <;> rfl
  · intro rs hb hq
    unfold getRelevantResources
    rw [hb, hq]
    cases ha : authoritativeSources topic <;> rfl
  · intro hb hq
    unfold getRelevantResources
    rw [hb, hq]
    cases ha : authoritativeSources topic <;> rfl

/-- Claim C9, witness: for the doubly-absent pair (`minimal`, `sleep`) the
lookup degrades to one `general` blog resource and no authoritative
source. -/
theorem resources_lookup_spec_witness :
    getRelevantResources "minimal" "sleep" =
      generalBlogs.take 1 ++ ((authoritativeSources "sleep").getD []).take 1 :=
  (resources_lookup_spec "minimal" "sleep").2.2.2 rfl rfl

set_option maxHeartbeats 1600000 in
/-- Claim C10: `sanitize_input` always returns at most 1000 characters,
free of the twelve dangerous characters and with no leading or trailing
whitespace; and both chat endpoints hand the model the sanitized text —
`chat_message` embeds `sanitize_input(message)` in the assembled prompt,
`enhanced_chat` sends `sanitize_input(question)` itself. -/
theorem sanitize_input_guarantees (s : String) :
    (sanitizeInput s).length ≤ 1000 ∧
    (sanitizeInput s).data.all (fun c => !(dangerousChars.contains c)) = true ∧
    (sanitizeInput s).data.head?.all (fun c => !(pyIsSpace c)) = true ∧
    (sanitizeInput s).data.getLast?.all (fun c => !(pyIsSpace c)) = true ∧
    (∀ contextType profileName relevantContext backend poolAvailable insertFails,
      (chatMessage s contextType profileName relevantContext backend
        poolAvailable insertFails).sent =
        createOptimizedPrompt (sanitizeInput s) profileName relevantContext contextType) ∧
    (∀ fineTuned baseModel poolAvailable insertFails,
      (enhancedChat s fineTuned baseModel poolAvailable insertFails).sent =
        sanitizeInput s) := by
  refine ⟨?_, ?_, ?_, ?_, ?_, ?_⟩
  · unfold sanitizeInput
    split_ifs with h1 h2
    · decide
    · calc (String.mk (pyStrip (removeDangerous (String.mk (s.data.take 1000)).data))).length
          ≤ (removeDangerous (s.data.take 1000)).length := pyStrip_length_le _
        _ ≤ (s.data.take 1000).length := foldl_removeChar_length_le _ _
        _ ≤ 1000 := s.data.length_take_le 1000
    · calc (String.mk (pyStrip (removeDangerous s.data))).length
          ≤ (removeDangerous s.data).length := pyStrip_length_le _
        _ ≤ s.data.length := foldl_removeChar_length_le _ _
        _ ≤ 1000 := by
            have : ¬ s.length > 1000 := h2
            simp only [String.length] at this ⊢
            omega
  · rcases sanitizeInput_shape s with h | ⟨t, h⟩
    · rw [h]; rfl
    · rw [h, List.all_eq_true]
      intro c hc
      have hmem : c ∉ dangerousChars :=
        (mem_foldl_removeChar dangerousChars t c (pyStrip_subset _ hc)).2
      simp only [Bool.not_eq_true']
      cases hcon : dangerousChars.contains c
      · rfl
      · exact absurd (by simpa using hcon) hmem
  · rcases sanitizeInput_shape s with h | ⟨t, h⟩
    · rw [h]; rfl
    · rw [h]
      cases hh : (pyStrip (removeDangerous t)).head? with
      | none => rfl
      | some c =>
        have := head?_pyStrip_not (removeDangerous t) c hh
        simp [Option.all, this]
  · rcases sanitizeInput_shape s with h | ⟨t, h⟩
    · rw [h]; rfl
    · rw [h]
      cases hh : (pyStrip (removeDangerous t)).getLast? with
      | none => rfl
      | some c =>
        have := getLast?_pyStrip_not (removeDangerous t) c hh
        simp [Option.all, this]
  · intro contextType profileName relevantContext backend poolAvailable insertFails
    unfold chatMessage
    simp only []
    cases backend (createOptimizedPrompt (sanitizeInput s) profileName
        relevantContext contextType) <;>
      cases poolAvailable <;> cases insertFails <;> rfl
  · intro fineTuned baseModel poolAvailable insertFails
    unfold enhancedChat
    simp only []
    cases fineTuned (sanitizeInput s) <;>
      cases poolAvailable <;> cases insertFails <;>
        first
        | rfl
        | (cases baseModel (sanitizeInput s) <;> rfl)

end KiAI
